import Mathlib

/-!
Verification of the session-scoped workflow store and stage-gated pipeline
orchestrator of the Medical_Scribe repository.

The embedding models:
* `src/modules/dataStore.js` — the `DataStore` class (`store`, `get`,
  `getSessionData`, `getSessionStatus`, `deleteSession`, `listSessions`,
  `cleanupOldSessions`);
* the Express route handlers of the server (reproduced in
  `src/usage-guide.md`): `POST /api/soap/generate` (generateDocument),
  `GET /api/pdf/download` (renderDocument), `GET /api/final-response`
  (assembleFinalResponse);
* `SOAPGenerator.generateSOAP` / `validateSOAPData` and
  `PDFGenerator.generatePDF` from the source.

JavaScript values are modelled by `JValue`; JavaScript truthiness by
`truthy`.  The `Map` used for the in-memory overlay and the per-session
directories of JSON files on disk are modelled by association lists with
JS-`Map.set` / `writeFileSync` overwrite semantics.  File-system and
collaborator failures are modelled by explicit boolean oracles, since the
JS code observes them only through thrown exceptions.
-/

/-- Model of a JavaScript/JSON value as stored in the data store. -/
inductive JValue where
  | jnull
  | jbool (b : Bool)
  | jnum (n : Int)
  | jstr (s : String)
  | jobj (fields : List (String × JValue))

/-- JavaScript truthiness of a `JValue` (`!!v` in the source).
`null`, `false`, `0` and the empty string are falsy; objects are truthy. -/
def truthy : JValue → Bool
  | .jnull => false
  | .jbool b => b
  | .jnum n => n != 0
  | .jstr s => s != ""
  | .jobj _ => true

/-- JavaScript property access `v[k]`: on an object, the value of the
first field named `k`; `undefined` (modelled as `jnull`) otherwise. -/
def jget : JValue → String → JValue
  | .jobj fields, k =>
    match fields.find? (fun p => p.1 == k) with
    | some p => p.2
    | none => .jnull
  | _, _ => .jnull

/-- Whether a `JValue` is an object that has a field named `k`
(`k in v` / hasOwnProperty in JavaScript). -/
def hasField : JValue → String → Bool
  | .jobj fields, k => fields.any (fun p => p.1 == k)
  | _, _ => false

/-- Overwrite semantics of `Map.set` / `writeFileSync` on an association list: replace
the binding of `k` in place if present, else append at the end. -/
def setA {α : Type} : List (String × α) → String → α → List (String × α)
  | [], k, v => [(k, v)]
  | (k', v') :: rest, k, v =>
    if k' = k then (k, v) :: rest else (k', v') :: setA rest k v

/-- Lookup semantics of `Map.get` on an association list. -/
def getA {α : Type} : List (String × α) → String → Option α
  | [], _ => none
  | (k', v') :: rest, k => if k' = k then some v' else getA rest k

/-- Removal semantics of `Map.delete` / `rmSync` on an association list: every
binding of the name is removed (a filesystem holds at most one directory
per name, so the model removes all occurrences). -/
def delA {α : Type} : List (String × α) → String → List (String × α)
  | [], _ => []
  | (k', v') :: rest, k =>
    if k' = k then delA rest k else (k', v') :: delA rest k

/-- Character-list prefix test: model of JavaScript
`String.prototype.startsWith` on the underlying character sequences. -/
def charsLead : List Char → List Char → Bool
  | [], _ => true
  | _ :: _, [] => false
  | c :: cs, d :: ds => c == d && charsLead cs ds

/-- Model of JavaScript `s.startsWith(pre)`. -/
def jsStartsWith (s pre : String) : Bool := charsLead pre.data s.data

/-- The in-memory overlay key `` `${sessionId}:${key}` `` used by
`DataStore.store` / `get` / `deleteSession`. -/
def memKey (sessionId key : String) : String := sessionId ++ ":" ++ key

/-- State of a `DataStore` instance: the in-memory `Map` overlay
(keyed by `` `${sessionId}:${key}` ``), and the durable medium: one
directory per session, one JSON record per key (only the `value` field of
the persisted record is relevant to the claims). -/
structure DataStore where
  memoryStore : List (String × JValue)
  files : List (String × List (String × JValue))

/-- Result of `DataStore.store`: the state after the call and whether the
call completed without throwing.  When the durable write throws, the
exception propagates (`ok = false`) but `this.memoryStore` has already
been mutated, exactly as in the source where `memoryStore.set` precedes
`writeFileSync`. -/
structure StoreOutcome where
  state : DataStore
  ok : Bool

/-- Model of `DataStore.store(sessionId, key, value)`.  `durableOk` is the oracle
for the durable write (`mkdirSync`/`writeFileSync`) succeeding; on
failure the error is rethrown after the in-memory write already
happened. -/
def DataStore.store (st : DataStore) (sessionId key : String) (value : JValue)
    (durableOk : Bool) : StoreOutcome :=
  let mem := setA st.memoryStore (memKey sessionId key) value
  if durableOk then
    let dir := (getA st.files sessionId).getD []
    ⟨⟨mem, setA st.files sessionId (setA dir key value)⟩, true⟩
  else
    ⟨⟨mem, st.files⟩, false⟩

/-- Model of `DataStore.get(sessionId, key)`: memory overlay first; on a miss, the
durable record, cached into the overlay (cache fill); `null` (absent)
when neither location has the key.  Returns the value together with the
state after the call (the cache fill mutates the overlay). -/
def DataStore.get (st : DataStore) (sessionId key : String) : JValue × DataStore :=
  match getA st.memoryStore (memKey sessionId key) with
  | some v => (v, st)
  | none =>
    match getA st.files sessionId with
    | none => (.jnull, st)
    | some dir =>
      match getA dir key with
      | none => (.jnull, st)
      | some v => (v, ⟨setA st.memoryStore (memKey sessionId key) v, st.files⟩)

/-- Model of `DataStore.getSessionData(sessionId)`: enumerate the durable records
of the session directory (empty mapping when the directory is absent).
Reads only the durable medium, never the overlay. -/
def DataStore.getSessionData (st : DataStore) (sessionId : String) :
    List (String × JValue) :=
  (getA st.files sessionId).getD []

/-- Lookup in the object returned by `getSessionData`
(`sessionData.key` in the source, `undefined` modelled as `jnull`). -/
def jsLookup (d : List (String × JValue)) (k : String) : JValue :=
  (getA d k).getD .jnull

/-- The status object built by `DataStore.getSessionStatus`. -/
structure SessionStatus where
  hasTranscriptRaw : Bool
  hasTranscriptClean : Bool
  hasSOAPData : Bool
  hasPDF : Bool
  hasOCRRaw : Bool
  hasOCRClean : Bool
  templateType : JValue
  completionPercentage : Nat

/-- Model of `Math.round((completedSteps / steps.length) * 100)` with
`steps.length = 4`: for a nonnegative argument `Math.round x` is
`⌊x + 1/2⌋`, and `(c / 4) * 100` is exact in floating point, so the
result is `⌊(c * 200 + 4) / 8⌋`. -/
def roundPct (completed : Nat) : Nat := (completed * 200 + 4) / 8

/-- Model of `DataStore.getSessionStatus(sessionId)`: presence booleans are the
JavaScript truthiness of the enumerated values (`!!sessionData.key`);
the completion percentage counts the four primary-path booleans. -/
def DataStore.getSessionStatus (st : DataStore) (sessionId : String) :
    SessionStatus :=
  let d := st.getSessionData sessionId
  let hTR := truthy (jsLookup d "transcript_raw")
  let hTC := truthy (jsLookup d "transcript_clean")
  let hSD := truthy (jsLookup d "soap_data")
  let hPDF := truthy (jsLookup d "pdf_path")
  let hOR := truthy (jsLookup d "ocr_raw")
  let hOC := truthy (jsLookup d "ocr_clean")
  let tt := if truthy (jsLookup d "template_type")
    then jsLookup d "template_type" else .jnull
  let steps := [hTR, hTC, hSD, hPDF]
  let completed := (steps.filter id).length
  ⟨hTR, hTC, hSD, hPDF, hOR, hOC, tt, roundPct completed⟩

/-- Model of `DataStore.deleteSession(sessionId)`: remove every overlay entry
whose key starts with `` `${sessionId}:` `` and remove the session
directory (`rmSync` with `force: true`, a no-op when absent). -/
def DataStore.deleteSession (st : DataStore) (sessionId : String) : DataStore :=
  ⟨st.memoryStore.filter (fun p => !(jsStartsWith p.1 (sessionId ++ ":"))),
   delA st.files sessionId⟩

/-- Model of `DataStore.listSessions()`: the session directories of the durable
medium, in directory order. -/
def DataStore.listSessions (st : DataStore) : List String :=
  st.files.map Prod.fst

/-- The fixed template vocabulary of `SOAPGenerator.templates`
(`src/unnamed/part_002`). -/
def templateKeys : List String :=
  ["Practice SOAP", "Pediatrics SOAP", "Cardiology SOAP", "Orthopedics SOAP",
   "Mental Health SOAP", "Dermatology SOAP", "Emergency SOAP", "Neurology SOAP"]

/-- The top-level required fields of `SOAPGenerator.validateSOAPData`. -/
def requiredFields : List String :=
  ["SOAP_Note", "summary", "prescription", "followUp", "nextSteps"]

/-- The required fields of the nested `SOAP_Note` object in
`SOAPGenerator.validateSOAPData`. -/
def requiredSOAPFields : List String :=
  ["Subjective", "Objective", "Assessment", "Plan"]

/-- Model of `SOAPGenerator.validateSOAPData(soapData)` as a boolean: `true` when
no required-field check throws.  The source throws on `!soapData[field]`,
i.e. on a missing or falsy field, first over the five top-level fields,
then over the four fields of `soapData.SOAP_Note`. -/
def validateSOAPData (soapData : JValue) : Bool :=
  requiredFields.all (fun f => truthy (jget soapData f)) &&
  requiredSOAPFields.all (fun f => truthy (jget (jget soapData "SOAP_Note") f))

/-- Model of `SOAPGenerator.generateSOAP(transcript, templateType)`.  The
collaborator response is abstracted as `response : Option JValue`
(`none` = API error or a reply `JSON.parse` rejects; `some v` = the
parsed reply).  Success returns the validated `soapData`; any thrown
error (invalid template, parse failure, failed validation) is caught and
turned into a failure result. -/
def generateSOAP (templateType : String) (response : Option JValue) :
    Option JValue :=
  if templateKeys.contains templateType then
    match response with
    | none => none
    | some soapData => if validateSOAPData soapData then some soapData else none
  else none

/-- Outcome of the `POST /api/soap/generate` handler (generateDocument). -/
inductive SoapResponse where
  | invalidInput
  | generationFailed
  | storageError
  | ok

/-- The `POST /api/soap/generate` handler from the server source: input
validation, `generateSOAP`, then `store` of `soap_data` and
`template_type` (a throwing `store` is caught by the outer handler and
reported as an internal error). -/
def generateDocument (st : DataStore) (sessionId transcript templateType : String)
    (response : Option JValue) (durableOk1 durableOk2 : Bool) :
    SoapResponse × DataStore :=
  if transcript = "" then (.invalidInput, st)
  else if templateType = "" then (.invalidInput, st)
  else
    match generateSOAP templateType response with
    | none => (.generationFailed, st)
    | some soapData =>
      let o1 := st.store sessionId "soap_data" soapData durableOk1
      if o1.ok then
        let o2 := o1.state.store sessionId "template_type" (.jstr templateType) durableOk2
        if o2.ok then (.ok, o2.state) else (.storageError, o2.state)
      else (.storageError, o1.state)

/-- Outcome of the `GET /api/pdf/download` handler (renderDocument). -/
inductive PdfResponse where
  | prereqMissing
  | renderFailed
  | storageError
  | ok (pdfPath : JValue)

/-- The `GET /api/pdf/download` handler from the server source: reads
`soap_data` and `template_type`, returns 404 when `!soapData`, then calls
`PDFGenerator.generatePDF(soapData, templateType, sessionId)` —
abstracted by the oracle `renderOk` and the produced path `pdfPath`,
since `generatePDF` never inspects `templateType` except to print it —
and on success stores `pdf_path`.  Note the source checks only
`soapData`; `templateType` is fetched but never checked. -/
def renderDocument (st : DataStore) (sessionId : String)
    (renderOk : Bool) (pdfPath : String) (durableOk : Bool) :
    PdfResponse × DataStore :=
  let r1 := st.get sessionId "soap_data"
  let r2 := r1.2.get sessionId "template_type"
  if !(truthy r1.1) then (.prereqMissing, r2.2)
  else if !renderOk then (.renderFailed, r2.2)
  else
    let o := r2.2.store sessionId "pdf_path" (.jstr pdfPath) durableOk
    if o.ok then (.ok (.jstr pdfPath), o.state) else (.storageError, o.state)

/-- The read-only view assembled by `GET /api/final-response`. -/
structure FinalView where
  transcript : JValue
  soap : JValue
  prescription : JValue
  followUp : JValue
  nextSteps : JValue
  summary : JValue
  templateType : JValue
  ocrText : JValue
  pdfPath : JValue

/-- Outcome of the `GET /api/final-response` handler. -/
inductive FinalResponse where
  | incomplete
  | ok (view : FinalView)

/-- The `GET /api/final-response` handler (assembleFinalResponse) from
the server source: reads `transcript_clean`, `soap_data`, `pdf_path` and
`template_type` of the primary session, optionally
`ocr_clean || ocr_raw` of the OCR session (short-circuit: `ocr_raw` is
read only when `ocr_clean` is falsy), fails when
`!transcriptClean || !soapData`, and otherwise returns the assembled
view. -/
def assembleFinalResponse (st : DataStore) (sessionId : String)
    (ocrSessionId : Option String) : FinalResponse × DataStore :=
  let r1 := st.get sessionId "transcript_clean"
  let r2 := r1.2.get sessionId "soap_data"
  let r3 := r2.2.get sessionId "pdf_path"
  let r4 := r3.2.get sessionId "template_type"
  let ro : JValue × DataStore :=
    match ocrSessionId with
    | none => (.jnull, r4.2)
    | some osid =>
      let rc := r4.2.get osid "ocr_clean"
      if truthy rc.1 then rc else rc.2.get osid "ocr_raw"
  if !(truthy r1.1) || !(truthy r2.1) then (.incomplete, ro.2)
  else
    (.ok ⟨r1.1, jget r2.1 "SOAP_Note", jget r2.1 "prescription",
          jget r2.1 "followUp", jget r2.1 "nextSteps", jget r2.1 "summary",
          r4.1, ro.1, r3.1⟩, ro.2)

/-- One pass of the `for` loop of `DataStore.cleanupOldSessions`.
`sessions` pairs each session id with the `mtime` of its directory;
`deleteFails` is the oracle for `deleteSession` (or the preceding
`statSync`) throwing on that session.  Returns whether the loop was
aborted by a thrown error, the value of `cleanedCount` at that point, and
the sessions actually deleted.  A thrown error propagates out of the
loop, so iteration stops at the first failing session. -/
def sweepLoop (deleteFails : String → Bool) (cutoff : Int) :
    List (String × Int) → Nat → List String → Bool × Nat × List String
  | [], cleaned, deleted => (false, cleaned, deleted)
  | (sid, mtime) :: rest, cleaned, deleted =>
    if mtime < cutoff then
      if deleteFails sid then (true, cleaned, deleted)
      else sweepLoop deleteFails cutoff rest (cleaned + 1) (deleted ++ [sid])
    else sweepLoop deleteFails cutoff rest cleaned deleted

/-- Model of `DataStore.cleanupOldSessions`: runs the sweep loop inside a single
`try`; a thrown per-session error lands in the outer `catch`, which
returns `0`.  Result: the returned count and the list of sessions
deleted (deletions already performed are not rolled back). -/
def cleanupOldSessions (deleteFails : String → Bool) (cutoff : Int)
    (sessions : List (String × Int)) : Nat × List String :=
  let r := sweepLoop deleteFails cutoff sessions 0 []
  (if r.1 then 0 else r.2.1, r.2.2)

/-- Observational agreement of two store states outside a set of overlay
keys: same durable medium, same overlay lookups for every key not in
`S`. -/
def obsExcept (S : List String) (st st' : DataStore) : Prop :=
  st'.files = st.files ∧
  ∀ q, q ∉ S → getA st'.memoryStore q = getA st.memoryStore q

/-- Well-formedness of an association list: one binding per key (true of
every reachable overlay / directory, since `Map.set` and `writeFileSync`
overwrite). -/
def keysNodup {α : Type} (m : List (String × α)) : Prop :=
  (m.map Prod.fst).Nodup

/-- The four primary-path artifact keys counted by the completion
percentage. -/
def primaryKeys : List String :=
  ["transcript_raw", "transcript_clean", "soap_data", "pdf_path"]

/-- A collaborator response is missing a required field of the fixed
schema: one of the five top-level fields, or one of the four fields of
the nested `SOAP_Note` object. -/
def missingRequiredField (resp : JValue) : Bool :=
  requiredFields.any (fun f => !(hasField resp f)) ||
  requiredSOAPFields.any (fun f => !(hasField (jget resp "SOAP_Note") f))

-- ## Association-list lemmas

theorem getA_setA_self {α : Type} (m : List (String × α)) (k : String) (v : α) :
    getA (setA m k v) k = some v := by
  induction m with
  | nil => simp [setA, getA]
  | cons p rest ih =>
    obtain ⟨k', v'⟩ := p
    by_cases h : k' = k <;> simp [setA, getA, h, ih]

theorem getA_setA_ne {α : Type} (m : List (String × α)) {k k' : String}
    (h : k' ≠ k) (v : α) : getA (setA m k v) k' = getA m k' := by
  induction m with
  | nil => simp [setA, getA, Ne.symm h]
  | cons p rest ih =>
    obtain ⟨k0, v0⟩ := p
    by_cases h0 : k0 = k
    · subst h0; simp [setA, getA, Ne.symm h]
    · simp [setA, getA, h0, ih]

theorem getA_delA_self {α : Type} (m : List (String × α)) (k : String) :
    getA (delA m k) k = none := by
  induction m with
  | nil => simp [delA, getA]
  | cons p rest ih =>
    obtain ⟨k0, v0⟩ := p
    by_cases h0 : k0 = k <;> simp [delA, getA, h0, ih]

theorem getA_delA_ne {α : Type} (m : List (String × α)) {k k' : String}
    (h : k' ≠ k) : getA (delA m k) k' = getA m k' := by
  induction m with
  | nil => simp [delA, getA]
  | cons p rest ih =>
    obtain ⟨k0, v0⟩ := p
    by_cases h0 : k0 = k
    · subst h0; simp [delA, getA, ih, Ne.symm h]
    · simp [delA, getA, h0, ih]

theorem delA_absent {α : Type} (m : List (String × α)) (k : String)
    (h : getA m k = none) : delA m k = m := by
  induction m with
  | nil => rfl
  | cons p rest ih =>
    obtain ⟨k0, v0⟩ := p
    by_cases h0 : k0 = k
    · simp [getA, h0] at h
    · simp [getA, h0] at h
      simp [delA, h0, ih h]

theorem getA_filter_none {α : Type} (m : List (String × α)) (k : String)
    (q : String × α → Bool) (h : ∀ v, q (k, v) = false) :
    getA (m.filter q) k = none := by
  induction m with
  | nil => rfl
  | cons p rest ih =>
    obtain ⟨k0, v0⟩ := p
    by_cases hq : q (k0, v0) = true
    · by_cases h0 : k0 = k
      · subst h0; rw [h v0] at hq; exact absurd hq (by simp)
      · simp [List.filter, hq, getA, h0, ih]
    · simp at hq
      simp [List.filter, hq, ih]

-- ## String-prefix lemmas

theorem charsLead_append (p t : List Char) : charsLead p (p ++ t) = true := by
  induction p with
  | nil => rfl
  | cons c cs ih => simp [charsLead, ih]

theorem jsStartsWith_memKey (sessionId key : String) :
    jsStartsWith (memKey sessionId key) (sessionId ++ ":") = true := by
  show charsLead (sessionId ++ ":").data ((sessionId ++ ":") ++ key).data = true
  rw [String.data_append]
  exact charsLead_append _ _

theorem memKey_ne (a b k1 k2 : String) (i : Nat)
    (h1 : i < k1.data.reverse.length) (h2 : i < k2.data.reverse.length)
    (hne : k1.data.reverse[i]? ≠ k2.data.reverse[i]?) :
    memKey a k1 ≠ memKey b k2 := by
  intro h
  have hd : k1.data.reverse ++ (a ++ ":").data.reverse
      = k2.data.reverse ++ (b ++ ":").data.reverse := by
    have := congrArg (fun s => s.data.reverse) h
    simpa [memKey, String.data_append, List.reverse_append] using this
  have h3 : (k1.data.reverse ++ (a ++ ":").data.reverse)[i]?
      = (k2.data.reverse ++ (b ++ ":").data.reverse)[i]? := by rw [hd]
  rw [List.getElem?_append_left h1, List.getElem?_append_left h2] at h3
  exact hne h3

-- ## DataStore.get lemmas

theorem get_files (st : DataStore) (s k : String) :
    (st.get s k).2.files = st.files := by
  unfold DataStore.get
  split
  · rfl
  · split
    · rfl
    · split <;> rfl

theorem get_fst (st : DataStore) (s k : String) :
    (st.get s k).1
      = (getA st.memoryStore (memKey s k)).getD (jsLookup (st.getSessionData s) k) := by
  unfold DataStore.get
  split
  · next v h => simp [h]
  · next h =>
    simp [h, DataStore.getSessionData, jsLookup]
    split
    · next h2 => simp [h2, getA]
    · next dir h2 =>
      simp [h2]
      split <;> simp_all

theorem obsExcept_refl (S : List String) (st : DataStore) : obsExcept S st st :=
  ⟨rfl, fun _ _ => rfl⟩

theorem obsExcept_mono {S T : List String} {st st' : DataStore}
    (hsub : ∀ q, q ∈ S → q ∈ T) (h : obsExcept S st st') : obsExcept T st st' :=
  ⟨h.1, fun q hq => h.2 q (fun hmem => hq (hsub q hmem))⟩

theorem obsExcept_get_fst {S : List String} {st st' : DataStore}
    (h : obsExcept S st st') (s k : String) (hk : memKey s k ∉ S) :
    (st'.get s k).1 = (st.get s k).1 := by
  rw [get_fst, get_fst, h.2 _ hk]
  unfold DataStore.getSessionData
  rw [h.1]

theorem obsExcept_get_snd {S : List String} {st st' : DataStore}
    (h : obsExcept S st st') (s k : String) :
    obsExcept (memKey s k :: S) st (st'.get s k).2 := by
  refine ⟨by rw [get_files]; exact h.1, ?_⟩
  intro q hq
  have hqk : q ≠ memKey s k := fun he => hq (he ▸ List.mem_cons_self _ _)
  have hqS : q ∉ S := fun hm => hq (List.mem_cons_of_mem _ hm)
  have base := h.2 q hqS
  unfold DataStore.get
  split
  · exact base
  · split
    · exact base
    · split
      · exact base
      · simpa [getA_setA_ne _ hqk] using base

-- ## DataStore.store lemmas

theorem store_memoryStore (st : DataStore) (s k : String) (v : JValue) (d : Bool) :
    (st.store s k v d).state.memoryStore = setA st.memoryStore (memKey s k) v := by
  unfold DataStore.store
  split <;> rfl

theorem store_files_false (st : DataStore) (s k : String) (v : JValue) :
    (st.store s k v false).state.files = st.files := rfl

theorem store_getSessionData_self (st : DataStore) (s k : String) (v : JValue) :
    ((st.store s k v true).state).getSessionData s
      = setA (st.getSessionData s) k v := by
  unfold DataStore.store DataStore.getSessionData
  simp [getA_setA_self]

theorem store_getSessionData_other (st : DataStore) (s k : String) (v : JValue)
    {s' : String} (h : s' ≠ s) :
    ((st.store s k v true).state).getSessionData s' = st.getSessionData s' := by
  unfold DataStore.store DataStore.getSessionData
  simp [getA_setA_ne _ h]

theorem setA_setA {α : Type} (m : List (String × α)) (k : String) (v1 v2 : α) :
    setA (setA m k v1) k v2 = setA m k v2 := by
  induction m with
  | nil => simp [setA]
  | cons p rest ih =>
    obtain ⟨k0, v0⟩ := p
    by_cases h0 : k0 = k <;> simp [setA, h0, ih]

theorem countP_setA_eq_one {α : Type} (m : List (String × α)) (k : String)
    (v : α) (h : keysNodup m) :
    ((setA m k v).countP (fun p => p.1 == k)) = 1 := by
  induction m with
  | nil => simp [setA, List.countP_cons]
  | cons p rest ih =>
    obtain ⟨k0, v0⟩ := p
    have h' : keysNodup rest := by
      simpa [keysNodup] using (List.nodup_cons.mp h).2
    by_cases h0 : k0 = k
    · subst h0
      have hnot : k0 ∉ rest.map Prod.fst := (List.nodup_cons.mp h).1
      have hz : rest.countP (fun p => p.1 == k0) = 0 := by
        rw [List.countP_eq_zero]
        intro a ha hc
        exact hnot (by
          have : a.1 = k0 := by simpa using hc
          exact this ▸ List.mem_map_of_mem Prod.fst ha)
      simp [setA, List.countP_cons, hz]
    · simp [setA, h0, List.countP_cons, ih h', h0]

-- ## Claim theorems, first batch

/-- C7: a successful `store(sessionId, key, value)` followed by
`get(sessionId, key)` in the same process returns exactly the stored
value. -/
theorem store_get_round_trip (st : DataStore) (sessionId key : String)
    (v : JValue) (durableOk : Bool)
    (h : (st.store sessionId key v durableOk).ok = true) :
    ((st.store sessionId key v durableOk).state.get sessionId key).1 = v := by
  rw [get_fst, store_memoryStore, getA_setA_self]
  rfl

/-- Witness for C7 at a concrete store state and artifact. -/
theorem store_get_round_trip_witness :
    ((DataStore.mk [] []).store "s1" "transcript_raw" (.jstr "hi") true).ok = true
    ∧ (((DataStore.mk [] []).store "s1" "transcript_raw" (.jstr "hi") true).state.get
        "s1" "transcript_raw").1 = .jstr "hi" :=
  ⟨rfl, store_get_round_trip (DataStore.mk [] []) "s1" "transcript_raw"
    (.jstr "hi") true rfl⟩

/-- C5: two `store` calls on the same `(sessionId, key)` leave exactly
one artifact for that key in `getSessionData`, holding the later value
(overwrite, no append or versioning). -/
theorem store_overwrite_unique (st : DataStore) (sessionId key : String)
    (v1 v2 : JValue) (hwf : keysNodup (st.getSessionData sessionId)) :
    (((((st.store sessionId key v1 true).state.store sessionId key v2 true).state.getSessionData
        sessionId).countP (fun p => p.1 == key)) = 1)
    ∧ getA (((st.store sessionId key v1 true).state.store sessionId key v2 true).state.getSessionData
        sessionId) key = some v2 := by
  rw [store_getSessionData_self, store_getSessionData_self, setA_setA]
  exact ⟨countP_setA_eq_one _ _ _ hwf, getA_setA_self _ _ _⟩

/-- Witness for C5 on a store that already holds a value for the key. -/
theorem store_overwrite_unique_witness :
    keysNodup ((DataStore.mk [] [("s1", [("soap_data", .jnull)])]).getSessionData "s1")
    ∧ getA ((((DataStore.mk [] [("s1", [("soap_data", .jnull)])]).store "s1" "soap_data"
        (.jstr "a") true).state.store "s1" "soap_data" (.jstr "b") true).state.getSessionData
        "s1") "soap_data" = some (.jstr "b") :=
  ⟨by simp [keysNodup, DataStore.getSessionData, getA],
   (store_overwrite_unique (DataStore.mk [] [("s1", [("soap_data", .jnull)])])
     "s1" "soap_data" (.jstr "a") (.jstr "b")
     (by simp [keysNodup, DataStore.getSessionData, getA])).2⟩

/-- C6: after `deleteSession`, `get` on any key of the session returns
absent and `getSessionData` is empty; deleting a session that has no
artifacts is a no-op (idempotence), not an error. -/
theorem deleteSession_spec (st : DataStore) (sessionId key : String) :
    ((st.deleteSession sessionId).get sessionId key).1 = .jnull
    ∧ (st.deleteSession sessionId).getSessionData sessionId = []
    ∧ ((∀ p ∈ st.memoryStore, jsStartsWith p.1 (sessionId ++ ":") = false) →
        getA st.files sessionId = none →
        st.deleteSession sessionId = st) := by
  have hdata : (st.deleteSession sessionId).getSessionData sessionId = [] := by
    unfold DataStore.deleteSession DataStore.getSessionData
    simp [getA_delA_self]
  refine ⟨?_, hdata, ?_⟩
  · rw [get_fst, hdata]
    have hmem : getA (st.deleteSession sessionId).memoryStore
        (memKey sessionId key) = none := by
      unfold DataStore.deleteSession
      exact getA_filter_none _ _ _ (fun v => by simp [jsStartsWith_memKey])
    rw [hmem]
    rfl
  · intro h1 h2
    unfold DataStore.deleteSession
    have hf : st.memoryStore.filter
        (fun p => !(jsStartsWith p.1 (sessionId ++ ":"))) = st.memoryStore := by
      rw [List.filter_eq_self]
      intro p hp
      simp [h1 p hp]
    rw [hf, delA_absent _ _ h2]

/-- Witness for C6: a populated session is fully cleared, and deleting
from an empty store is a no-op. -/
theorem deleteSession_spec_witness :
    (((DataStore.mk [("s1:soap_data", .jstr "x")] [("s1", [("soap_data", .jstr "x")])]).deleteSession
        "s1").get "s1" "soap_data").1 = .jnull
    ∧ ((DataStore.mk [("s1:soap_data", .jstr "x")] [("s1", [("soap_data", .jstr "x")])]).deleteSession
        "s1").getSessionData "s1" = []
    ∧ (DataStore.mk [] []).deleteSession "s1" = DataStore.mk [] [] :=
  ⟨(deleteSession_spec _ "s1" "soap_data").1,
   (deleteSession_spec _ "s1" "soap_data").2.1,
   (deleteSession_spec (DataStore.mk [] []) "s1" "soap_data").2.2
     (fun p hp => absurd hp (List.not_mem_nil p)) rfl⟩

/-- C3 (amended): when the durable write of `store` fails and
`StorageFailure` propagates, the durable medium and every other
`(sessionId, key)` read are unchanged — prior artifacts remain intact —
but the in-memory overlay was already updated before the write, so a
subsequent same-process `get` on that `(sessionId, key)` returns the
attempted new value, not the previous one. -/
theorem store_failure_state (st : DataStore) (sessionId key : String) (v : JValue) :
    (st.store sessionId key v false).ok = false
    ∧ (st.store sessionId key v false).state.files = st.files
    ∧ ((st.store sessionId key v false).state.get sessionId key).1 = v
    ∧ ∀ s' k', memKey s' k' ≠ memKey sessionId key →
        ((st.store sessionId key v false).state.get s' k').1 = (st.get s' k').1 := by
  refine ⟨rfl, rfl, ?_, ?_⟩
  · rw [get_fst, store_memoryStore, getA_setA_self]
    rfl
  · intro s' k' hne
    have hobs : obsExcept [memKey sessionId key] st
        (st.store sessionId key v false).state := by
      refine ⟨rfl, ?_⟩
      intro q hq
      rw [store_memoryStore]
      exact getA_setA_ne _ (by simpa using hq) v
    exact obsExcept_get_fst hobs s' k' (by simpa using hne)

/-- Witness for C3 (amended) at a concrete session. -/
theorem store_failure_state_witness :
    ((DataStore.mk [] [("s1", [("k1", .jstr "v1")])]).store "s1" "k1" (.jstr "v2") false).ok = false
    ∧ (((DataStore.mk [] [("s1", [("k1", .jstr "v1")])]).store "s1" "k1" (.jstr "v2")
        false).state.get "s2" "k2").1
      = ((DataStore.mk [] [("s1", [("k1", .jstr "v1")])]).get "s2" "k2").1 :=
  ⟨(store_failure_state (DataStore.mk [] [("s1", [("k1", .jstr "v1")])]) "s1" "k1" (.jstr "v2")).1,
   (store_failure_state (DataStore.mk [] [("s1", [("k1", .jstr "v1")])]) "s1" "k1"
     (.jstr "v2")).2.2.2 "s2" "k2"
     (memKey_ne "s2" "s1" "k2" "k1" 0 (by decide) (by decide) (by decide))⟩

/-- C3 counterexample: with `k` previously holding `"v1"` durably, a
failed `store` of `"v2"` leaves a state in which `get` returns the new
value `"v2"`, not the previous value `"v1"` as the claim states. -/
theorem store_failure_cex :
    ((DataStore.mk [] [("s1", [("k1", .jstr "v1")])]).store "s1" "k1" (.jstr "v2") false).ok = false
    ∧ ((DataStore.mk [] [("s1", [("k1", .jstr "v1")])]).get "s1" "k1").1 = .jstr "v1"
    ∧ (((DataStore.mk [] [("s1", [("k1", .jstr "v1")])]).store "s1" "k1" (.jstr "v2")
        false).state.get "s1" "k1").1 = .jstr "v2"
    ∧ JValue.jstr "v2" ≠ JValue.jstr "v1" :=
  ⟨rfl, rfl, rfl, by intro h; injection h with h2; exact absurd h2 (by decide)⟩

-- ## Session-status lemmas

theorem roundPct_count (b1 b2 b3 b4 : Bool) :
    roundPct ((List.filter id [b1, b2, b3, b4]).length)
      = 25 * (List.countP id [b1, b2, b3, b4]) := by
  cases b1 <;> cases b2 <;> cases b3 <;> cases b4 <;> rfl

theorem countP_primaryKeys (f : String → Bool) :
    primaryKeys.countP f
      = List.countP id
          [f "transcript_raw", f "transcript_clean", f "soap_data", f "pdf_path"] := by
  rfl

/-- C4 (amended): the completion percentage is exactly 25 per
primary-path artifact whose stored value is truthy (the `Math.round`
formula collapses to that), and the OCR-path artifacts never contribute:
storing any value under `ocr_raw` or `ocr_clean` leaves the percentage
unchanged. -/
theorem completion_percentage_spec (st : DataStore) (sessionId : String) :
    (st.getSessionStatus sessionId).completionPercentage
      = 25 * (primaryKeys.countP
          (fun k => truthy (jsLookup (st.getSessionData sessionId) k)))
    ∧ ∀ v : JValue,
        ((st.store sessionId "ocr_raw" v true).state.getSessionStatus
            sessionId).completionPercentage
          = (st.getSessionStatus sessionId).completionPercentage
        ∧ ((st.store sessionId "ocr_clean" v true).state.getSessionStatus
            sessionId).completionPercentage
          = (st.getSessionStatus sessionId).completionPercentage := by
  have base : ∀ st' : DataStore,
      (st'.getSessionStatus sessionId).completionPercentage
        = 25 * (primaryKeys.countP
            (fun k => truthy (jsLookup (st'.getSessionData sessionId) k))) := by
    intro st'
    rw [countP_primaryKeys]
    exact roundPct_count _ _ _ _
  refine ⟨base st, ?_⟩
  intro v
  constructor
  · rw [base st, base ((st.store sessionId "ocr_raw" v true).state)]
    rw [store_getSessionData_self]
    congr 1
    apply List.countP_congr
    intro k hk
    fin_cases hk <;>
      simp [jsLookup, getA_setA_ne _ (by decide : (("transcript_raw" : String)) ≠ "ocr_raw") v,
        getA_setA_ne _ (by decide : (("transcript_clean" : String)) ≠ "ocr_raw") v,
        getA_setA_ne _ (by decide : (("soap_data" : String)) ≠ "ocr_raw") v,
        getA_setA_ne _ (by decide : (("pdf_path" : String)) ≠ "ocr_raw") v]
  · rw [base st, base ((st.store sessionId "ocr_clean" v true).state)]
    rw [store_getSessionData_self]
    congr 1
    apply List.countP_congr
    intro k hk
    fin_cases hk <;>
      simp [jsLookup, getA_setA_ne _ (by decide : (("transcript_raw" : String)) ≠ "ocr_clean") v,
        getA_setA_ne _ (by decide : (("transcript_clean" : String)) ≠ "ocr_clean") v,
        getA_setA_ne _ (by decide : (("soap_data" : String)) ≠ "ocr_clean") v,
        getA_setA_ne _ (by decide : (("pdf_path" : String)) ≠ "ocr_clean") v]

/-- C4 counterexample: a session whose `transcript_raw` artifact is
present (listed by `getSessionData`) but stored as the empty string has
one present primary-path artifact, yet `completionPercentage` is `0`,
not the `25` the claim computes from presence. -/
theorem completion_percentage_cex :
    ("transcript_raw" ∈ ((DataStore.mk [] [("s1", [("transcript_raw", .jstr "")])]).getSessionData
        "s1").map Prod.fst)
    ∧ ((DataStore.mk [] [("s1", [("transcript_raw", .jstr "")])]).getSessionStatus
        "s1").completionPercentage = 0
    ∧ (25 : Nat) ≠ 0 :=
  ⟨by simp [DataStore.getSessionData, getA], rfl, by decide⟩

/-- C10: artifact presence in the status view is JavaScript truthiness
of the stored value, not key existence: a primary-path key stored with a
falsy value is reported `false` and excluded from the completion
percentage, although `get` returns the stored value and
`getSessionData` lists the key. -/
theorem status_truthiness (st : DataStore) (sessionId : String) (v : JValue)
    (hv : truthy v = false) :
    (((st.store sessionId "transcript_raw" v true).state.getSessionStatus
        sessionId).hasTranscriptRaw = false)
    ∧ (((st.store sessionId "transcript_raw" v true).state.getSessionStatus
        sessionId).completionPercentage
      = 25 * (["transcript_clean", "soap_data", "pdf_path"].countP
          (fun k => truthy (jsLookup
            ((st.store sessionId "transcript_raw" v true).state.getSessionData sessionId) k))))
    ∧ ((st.store sessionId "transcript_raw" v true).state.get sessionId "transcript_raw").1 = v
    ∧ getA ((st.store sessionId "transcript_raw" v true).state.getSessionData sessionId)
        "transcript_raw" = some v := by
  have hlook : jsLookup
      ((st.store sessionId "transcript_raw" v true).state.getSessionData sessionId)
      "transcript_raw" = v := by
    rw [store_getSessionData_self]
    simp [jsLookup, getA_setA_self]
  refine ⟨?_, ?_, ?_, ?_⟩
  · show truthy (jsLookup _ "transcript_raw") = false
    rw [hlook, hv]
  · show roundPct ((List.filter id
        [truthy (jsLookup _ "transcript_raw"), _, _, _]).length) = _
    rw [hlook, hv]
    have hc : ∀ b1 b2 b3 : Bool,
        roundPct ((List.filter id [false, b1, b2, b3]).length)
          = 25 * (List.countP id [b1, b2, b3]) := by
      intro b1 b2 b3
      cases b1 <;> cases b2 <;> cases b3 <;> rfl
    exact hc _ _ _
  · rw [get_fst, store_memoryStore, getA_setA_self]
    rfl
  · rw [store_getSessionData_self]
    exact getA_setA_self _ _ _

/-- Witness for C10: storing the empty string as `transcript_raw` in an
empty store yields `hasTranscriptRaw = false` while `getSessionData`
still lists the key. -/
theorem status_truthiness_witness :
    truthy (.jstr "") = false
    ∧ (((DataStore.mk [] []).store "s1" "transcript_raw" (.jstr "") true).state.getSessionStatus
        "s1").hasTranscriptRaw = false
    ∧ getA (((DataStore.mk [] []).store "s1" "transcript_raw" (.jstr "") true).state.getSessionData
        "s1") "transcript_raw" = some (.jstr "") :=
  ⟨rfl, (status_truthiness (DataStore.mk [] []) "s1" (.jstr "") rfl).1,
   (status_truthiness (DataStore.mk [] []) "s1" (.jstr "") rfl).2.2.2⟩

-- ## Retention-sweep lemmas

theorem sweepLoop_append (deleteFails : String → Bool) (cutoff : Int)
    (pre post : List (String × Int)) (acc : Nat) (deleted : List String) :
    sweepLoop deleteFails cutoff (pre ++ post) acc deleted
      = (if (sweepLoop deleteFails cutoff pre acc deleted).1
         then sweepLoop deleteFails cutoff pre acc deleted
         else sweepLoop deleteFails cutoff post
           (sweepLoop deleteFails cutoff pre acc deleted).2.1
           (sweepLoop deleteFails cutoff pre acc deleted).2.2) := by
  induction pre generalizing acc deleted with
  | nil => simp [sweepLoop]
  | cons p rest ih =>
    obtain ⟨sid, mtime⟩ := p
    by_cases hm : mtime < cutoff
    · by_cases hf : deleteFails sid = true
      · simp [sweepLoop, hm, hf]
      · simp only [Bool.not_eq_true] at hf
        simp [sweepLoop, hm, hf, ih]
    · simp [sweepLoop, hm, ih]

/-- C1 (amended): a failure while deleting one session aborts the rest
of the sweep: sessions after the failing one are never visited, the
error is caught only at the whole-sweep level (`cleanupOldSessions`
returns `0` instead of the number of sessions already removed), and the
deletions performed before the failure are not rolled back. -/
theorem cleanup_abort_on_failure (deleteFails : String → Bool) (cutoff : Int)
    (pre post : List (String × Int)) (sid : String) (mtime : Int)
    (hmt : mtime < cutoff) (hfail : deleteFails sid = true)
    (hpre : (sweepLoop deleteFails cutoff pre 0 []).1 = false) :
    cleanupOldSessions deleteFails cutoff (pre ++ (sid, mtime) :: post)
      = (0, (sweepLoop deleteFails cutoff pre 0 []).2.2) := by
  unfold cleanupOldSessions
  rw [sweepLoop_append, hpre]
  simp [sweepLoop, hmt, hfail]

/-- Witness for C1 (amended): with sessions `a`, `b`, `c` all stale and
deletion failing on `b`, the sweep deletes `a`, aborts before `c`, and
returns `0`. -/
theorem cleanup_abort_on_failure_witness :
    ((0 : Int) < 1 ∧ ((fun s => s == "b") : String → Bool) "b" = true
      ∧ (sweepLoop (fun s => s == "b") 1 [("a", 0)] 0 []).1 = false)
    ∧ cleanupOldSessions (fun s => s == "b") 1 [("a", 0), ("b", 0), ("c", 0)]
      = (0, ["a"]) :=
  ⟨⟨by decide, rfl, rfl⟩,
   cleanup_abort_on_failure (fun s => s == "b") 1 [("a", 0)] [("c", 0)] "b" 0
     (by decide) rfl rfl⟩

/-- C1 counterexample: two stale sessions `a`, `b`; deletion of `a`
fails.  The sweep returns count `0` and never deletes `b`, whereas the
claim requires the failure on `a` to be skipped, `b` to be deleted, and
the count to reflect the one successful removal. -/
theorem cleanup_cex :
    cleanupOldSessions (fun s => s == "a") 1 [("a", 0), ("b", 0)] = (0, [])
    ∧ ¬ ("b" ∈ (cleanupOldSessions (fun s => s == "a") 1 [("a", 0), ("b", 0)]).2)
    ∧ (0 : Nat) ≠ 1 :=
  ⟨rfl, by intro hmem; rw [show (cleanupOldSessions (fun s => s == "a") 1
      [("a", 0), ("b", 0)]).2 = [] from rfl] at hmem; exact absurd hmem (List.not_mem_nil "b"),
   by decide⟩

-- ## Schema-validation lemmas

theorem jget_of_not_hasField (v : JValue) (f : String)
    (h : hasField v f = false) : jget v f = .jnull := by
  cases v with
  | jobj fields =>
    have hne : ∀ a b, (a, b) ∈ fields → ¬ a = f := by simpa [hasField] using h
    have hnone : fields.find? (fun p => p.1 == f) = none := by
      rw [List.find?_eq_none]
      intro x hx
      simpa using hne x.1 x.2 hx
    simp [jget, hnone]
  | jnull => rfl
  | jbool b => rfl
  | jnum n => rfl
  | jstr s => rfl

theorem validateSOAPData_false_of_missing (resp : JValue)
    (h : missingRequiredField resp = true) : validateSOAPData resp = false := by
  rw [Bool.eq_false_iff]
  intro hval
  have hv : (∀ f ∈ requiredFields, truthy (jget resp f) = true)
      ∧ ∀ f ∈ requiredSOAPFields, truthy (jget (jget resp "SOAP_Note") f) = true := by
    simpa [validateSOAPData] using hval
  have hm : (∃ f ∈ requiredFields, hasField resp f = false)
      ∨ ∃ f ∈ requiredSOAPFields, hasField (jget resp "SOAP_Note") f = false := by
    simpa [missingRequiredField] using h
  rcases hm with ⟨f, hf, hmiss⟩ | ⟨f, hf, hmiss⟩
  · have ht := hv.1 f hf
    rw [jget_of_not_hasField _ _ hmiss] at ht
    exact absurd ht (by decide)
  · have ht := hv.2 f hf
    rw [jget_of_not_hasField _ _ hmiss] at ht
    exact absurd ht (by decide)

theorem truthy_of_validateSOAPData (resp : JValue)
    (h : validateSOAPData resp = true) : truthy resp = true := by
  have hv : (∀ f ∈ requiredFields, truthy (jget resp f) = true)
      ∧ ∀ f ∈ requiredSOAPFields, truthy (jget (jget resp "SOAP_Note") f) = true := by
    simpa [validateSOAPData] using h
  have hs := hv.1 "SOAP_Note" (by simp [requiredFields])
  cases resp with
  | jobj fields => rfl
  | jnull => simp [jget, truthy] at hs
  | jbool b => simp [jget, truthy] at hs
  | jnum n => simp [jget, truthy] at hs
  | jstr s => simp [jget, truthy] at hs

/-- C8: `generateDocument` fails — and stores neither `soap_data` nor
`template_type` — whenever any required field of the fixed schema is
absent from the collaborator response, and a success certifies that the
explicit validation passed. -/
theorem generateDocument_schema_guard (st : DataStore)
    (sessionId transcript templateType : String) (resp : JValue) (d1 d2 : Bool)
    (hmiss : missingRequiredField resp = true) :
    (generateDocument st sessionId transcript templateType (some resp) d1 d2).2 = st
    ∧ ((generateDocument st sessionId transcript templateType (some resp) d1 d2).1
          = .generationFailed
       ∨ (generateDocument st sessionId transcript templateType (some resp) d1 d2).1
          = .invalidInput) := by
  have hval := validateSOAPData_false_of_missing resp hmiss
  unfold generateDocument
  by_cases h1 : transcript = ""
  · simp [h1]
  · by_cases h2 : templateType = ""
    · simp [h1, h2]
    · have hg : generateSOAP templateType (some resp) = none := by
        unfold generateSOAP
        by_cases hc : templateKeys.contains templateType <;> simp [hc, hval]
      simp [h1, h2, hg]

/-- Witness for C8: a response missing every required field is rejected
and the store is untouched. -/
theorem generateDocument_schema_guard_witness :
    missingRequiredField (.jobj [("summary", .jstr "s")]) = true
    ∧ (generateDocument (DataStore.mk [] []) "s1" "t" "Cardiology SOAP"
        (some (.jobj [("summary", .jstr "s")])) true true).2 = DataStore.mk [] [] :=
  ⟨rfl, (generateDocument_schema_guard (DataStore.mk [] []) "s1" "t" "Cardiology SOAP"
    (.jobj [("summary", .jstr "s")]) true true rfl).1⟩

-- ## Render-stage lemmas

theorem generateSOAP_validated (templateType : String) (resp : Option JValue)
    (sd : JValue) (h : generateSOAP templateType resp = some sd) :
    validateSOAPData sd = true := by
  unfold generateSOAP at h
  by_cases hc : templateKeys.contains templateType
  · rw [if_pos hc] at h
    cases resp with
    | none => exact absurd h (by simp)
    | some v =>
      by_cases hval : validateSOAPData v = true
      · simp [hval] at h
        rw [← h]
        exact hval
      · simp [Bool.eq_false_iff.mpr hval] at h
  · rw [if_neg hc] at h
    exact absurd h (by simp)

theorem renderDocument_succeeds (st : DataStore) (sessionId p : String)
    (h : truthy (st.get sessionId "soap_data").1 = true) :
    (renderDocument st sessionId true p true).1 = .ok (.jstr p)
    ∧ getA ((renderDocument st sessionId true p true).2.getSessionData sessionId)
        "pdf_path" = some (.jstr p) := by
  constructor
  · simp only [renderDocument, h]
    rfl
  · simp only [renderDocument, h]
    show getA ((((((st.get sessionId "soap_data").2.get sessionId
        "template_type").2.store sessionId "pdf_path" (.jstr p) true)).state).getSessionData
        sessionId) "pdf_path" = some (.jstr p)
    rw [store_getSessionData_self]
    exact getA_setA_self _ _ _

/-- C2 (amended): the PDF stage requires only `soap_data`: when its read
is falsy (absent included) it fails with PrerequisiteMissing and writes
nothing durable; when the read is truthy it proceeds regardless of
`template_type` and, with the renderer and the store succeeding,
produces `pdf_path`; in particular it succeeds right after a successful
`generateDocument`. -/
theorem renderDocument_spec (st : DataStore) (sessionId : String)
    (renderOk durableOk : Bool) (p : String) :
    (truthy (st.get sessionId "soap_data").1 = false →
       (renderDocument st sessionId renderOk p durableOk).1 = .prereqMissing
       ∧ (renderDocument st sessionId renderOk p durableOk).2.files = st.files)
    ∧ (truthy (st.get sessionId "soap_data").1 = true →
       (renderDocument st sessionId true p true).1 = .ok (.jstr p)
       ∧ getA ((renderDocument st sessionId true p true).2.getSessionData sessionId)
           "pdf_path" = some (.jstr p))
    ∧ (∀ transcript templateType : String, ∀ resp : Option JValue,
        (generateDocument st sessionId transcript templateType resp true true).1 = .ok →
        (renderDocument
          (generateDocument st sessionId transcript templateType resp true true).2
          sessionId true p true).1 = .ok (.jstr p)) := by
  refine ⟨?_, fun h => renderDocument_succeeds st sessionId p h, ?_⟩
  · intro h
    constructor
    · simp only [renderDocument, h]
      rfl
    · simp only [renderDocument, h]
      show (((st.get sessionId "soap_data").2).get sessionId "template_type").2.files
        = st.files
      rw [get_files, get_files]
  · intro transcript templateType resp hok
    by_cases h1 : transcript = ""
    · exfalso
      simp only [generateDocument, h1, if_pos] at hok
      exact SoapResponse.noConfusion hok
    · by_cases h2 : templateType = ""
      · exfalso
        simp only [generateDocument, h1, h2] at hok
        simp at hok
      · rcases hg : generateSOAP templateType resp with _ | sd
        · exfalso
          simp only [generateDocument, h1, h2] at hok
          simp [hg] at hok
        · have hpost : (generateDocument st sessionId transcript templateType resp true true).2
              = ((st.store sessionId "soap_data" sd true).state.store sessionId
                  "template_type" (.jstr templateType) true).state := by
            simp only [generateDocument, h1, h2, hg]
            rfl
          apply (renderDocument_succeeds _ sessionId p ?_).1
          rw [hpost, get_fst, store_memoryStore, store_memoryStore]
          rw [getA_setA_ne _ (Ne.symm (memKey_ne sessionId sessionId "template_type"
            "soap_data" 0 (by decide) (by decide) (by decide))), getA_setA_self]
          have := truthy_of_validateSOAPData sd (generateSOAP_validated _ _ _ hg)
          simpa using this

/-- Witness for C2 (amended): both the guard branch and the success
branch, exercised at concrete stores. -/
theorem renderDocument_spec_witness :
    (truthy ((DataStore.mk [] []).get "s1" "soap_data").1 = false
      ∧ (renderDocument (DataStore.mk [] []) "s1" true "p.pdf" true).1 = .prereqMissing)
    ∧ (truthy ((DataStore.mk [] [("s1", [("soap_data", .jobj [])])]).get "s1" "soap_data").1 = true
      ∧ (renderDocument (DataStore.mk [] [("s1", [("soap_data", .jobj [])])]) "s1" true
          "p.pdf" true).1 = .ok (.jstr "p.pdf")) :=
  ⟨⟨rfl, ((renderDocument_spec (DataStore.mk [] []) "s1" true true "p.pdf").1 rfl).1⟩,
   ⟨rfl, ((renderDocument_spec (DataStore.mk [] [("s1", [("soap_data", .jobj [])])])
      "s1" true true "p.pdf").2.1 rfl).1⟩⟩

/-- C2 counterexample: `soap_data` present and truthy but
`template_type` absent — the handler does not fail with
PrerequisiteMissing as the claim requires: it succeeds and writes
`pdf_path`. -/
theorem renderDocument_cex :
    getA ((DataStore.mk [] [("s1", [("soap_data", .jobj [("SOAP_Note", .jobj [])])])]).getSessionData
        "s1") "template_type" = none
    ∧ (renderDocument (DataStore.mk [] [("s1", [("soap_data", .jobj [("SOAP_Note", .jobj [])])])])
        "s1" true "p.pdf" true).1 = .ok (.jstr "p.pdf")
    ∧ (renderDocument (DataStore.mk [] [("s1", [("soap_data", .jobj [("SOAP_Note", .jobj [])])])])
        "s1" true "p.pdf" true).1 ≠ .prereqMissing
    ∧ getA ((renderDocument (DataStore.mk [] [("s1", [("soap_data", .jobj [("SOAP_Note", .jobj [])])])])
        "s1" true "p.pdf" true).2.getSessionData "s1") "pdf_path" = some (.jstr "p.pdf") :=
  ⟨rfl, rfl, fun h => PdfResponse.noConfusion h, rfl⟩

-- ## Final-response lemmas

/-- C9 (amended): `assembleFinalResponse` never touches the durable
artifacts of any session; it fails with IncompleteWorkflow exactly when
the `transcript_clean` or `soap_data` read of the primary session is
falsy (absent, or present with a falsy stored value); and with an OCR
session supplied, the assembled `ocrText` is the `ocr_clean` read,
falling back to the `ocr_raw` read when `ocr_clean` is falsy. -/
theorem assembleFinalResponse_spec (st : DataStore) (sessionId : String)
    (ocrSessionId : Option String) :
    (assembleFinalResponse st sessionId ocrSessionId).2.files = st.files
    ∧ ((assembleFinalResponse st sessionId ocrSessionId).1 = .incomplete
        ↔ (truthy (st.get sessionId "transcript_clean").1 = false
           ∨ truthy (st.get sessionId "soap_data").1 = false))
    ∧ (∀ o : String, ocrSessionId = some o →
        ∀ view : FinalView,
          (assembleFinalResponse st sessionId ocrSessionId).1 = .ok view →
          view.ocrText = (if truthy (st.get o "ocr_clean").1 = true
            then (st.get o "ocr_clean").1 else (st.get o "ocr_raw").1)) := by
  have obs1 := obsExcept_get_snd (obsExcept_refl [] st) sessionId "transcript_clean"
  have nmSD : memKey sessionId "soap_data" ∉
      [memKey sessionId "transcript_clean"] := by
    intro hmem
    simp only [List.mem_singleton] at hmem
    exact memKey_ne sessionId sessionId "soap_data" "transcript_clean" 0
      (by decide) (by decide) (by decide) hmem
  have hsd : ((st.get sessionId "transcript_clean").2.get sessionId "soap_data").1
      = (st.get sessionId "soap_data").1 := obsExcept_get_fst obs1 _ _ nmSD
  have obs2 := obsExcept_get_snd obs1 sessionId "soap_data"
  have obs3 := obsExcept_get_snd obs2 sessionId "pdf_path"
  have obs4 := obsExcept_get_snd obs3 sessionId "template_type"
  rcases ocrSessionId with _ | o
  · refine ⟨?_, ?_, ?_⟩
    · simp only [assembleFinalResponse]
      split <;> exact obs4.1
    · simp only [assembleFinalResponse]
      rw [hsd]
      by_cases h1 : truthy (st.get sessionId "transcript_clean").1 = true <;>
        by_cases h2 : truthy (st.get sessionId "soap_data").1 = true <;>
          simp [h1, h2]
    · intro o ho
      exact Option.noConfusion ho
  · have nmOC : memKey o "ocr_clean" ∉
        [memKey sessionId "template_type", memKey sessionId "pdf_path",
         memKey sessionId "soap_data", memKey sessionId "transcript_clean"] := by
      intro hmem
      simp only [List.mem_cons, List.mem_singleton, List.not_mem_nil, or_false] at hmem
      rcases hmem with h | h | h | h
      · exact memKey_ne o sessionId "ocr_clean" "template_type" 0
          (by decide) (by decide) (by decide) h
      · exact memKey_ne o sessionId "ocr_clean" "pdf_path" 0
          (by decide) (by decide) (by decide) h
      · exact memKey_ne o sessionId "ocr_clean" "soap_data" 0
          (by decide) (by decide) (by decide) h
      · exact memKey_ne o sessionId "ocr_clean" "transcript_clean" 6
          (by decide) (by decide) (by decide) h
    have hoc : (((((st.get sessionId "transcript_clean").2.get sessionId
        "soap_data").2.get sessionId "pdf_path").2.get sessionId
        "template_type").2.get o "ocr_clean").1 = (st.get o "ocr_clean").1 :=
      obsExcept_get_fst obs4 _ _ nmOC
    have obs5 := obsExcept_get_snd obs4 o "ocr_clean"
    have nmOR : memKey o "ocr_raw" ∉
        [memKey o "ocr_clean", memKey sessionId "template_type",
         memKey sessionId "pdf_path", memKey sessionId "soap_data",
         memKey sessionId "transcript_clean"] := by
      intro hmem
      simp only [List.mem_cons, List.mem_singleton, List.not_mem_nil, or_false] at hmem
      rcases hmem with h | h | h | h | h
      · exact memKey_ne o o "ocr_raw" "ocr_clean" 0
          (by decide) (by decide) (by decide) h
      · exact memKey_ne o sessionId "ocr_raw" "template_type" 0
          (by decide) (by decide) (by decide) h
      · exact memKey_ne o sessionId "ocr_raw" "pdf_path" 0
          (by decide) (by decide) (by decide) h
      · exact memKey_ne o sessionId "ocr_raw" "soap_data" 0
          (by decide) (by decide) (by decide) h
      · exact memKey_ne o sessionId "ocr_raw" "transcript_clean" 0
          (by decide) (by decide) (by decide) h
    have hor : ((((((st.get sessionId "transcript_clean").2.get sessionId
        "soap_data").2.get sessionId "pdf_path").2.get sessionId
        "template_type").2.get o "ocr_clean").2.get o "ocr_raw").1
        = (st.get o "ocr_raw").1 :=
      obsExcept_get_fst obs5 _ _ nmOR
    have obs6 := obsExcept_get_snd obs5 o "ocr_raw"
    refine ⟨?_, ?_, ?_⟩
    · simp only [assembleFinalResponse]
      by_cases hc : truthy (((((st.get sessionId "transcript_clean").2.get sessionId
          "soap_data").2.get sessionId "pdf_path").2.get sessionId
          "template_type").2.get o "ocr_clean").1 = true
      · simp only [hc, if_pos]
        split <;> exact obs5.1
      · simp only [Bool.not_eq_true] at hc
        simp only [hc]
        split <;> exact obs6.1
    · simp only [assembleFinalResponse]
      rw [hsd]
      by_cases h1 : truthy (st.get sessionId "transcript_clean").1 = true <;>
        by_cases h2 : truthy (st.get sessionId "soap_data").1 = true <;>
          simp [h1, h2]
    · intro o' ho' view hview
      have ho2 : o = o' := Option.some.inj ho'
      subst ho2
      simp only [assembleFinalResponse] at hview
      rw [hsd] at hview
      by_cases h1 : truthy (st.get sessionId "transcript_clean").1 = true <;>
        by_cases h2 : truthy (st.get sessionId "soap_data").1 = true <;>
          simp [h1, h2] at hview
      have hvt : view.ocrText
          = (if truthy (((((st.get sessionId "transcript_clean").2.get sessionId
                "soap_data").2.get sessionId "pdf_path").2.get sessionId
                "template_type").2.get o "ocr_clean").1 = true
             then ((((st.get sessionId "transcript_clean").2.get sessionId
                "soap_data").2.get sessionId "pdf_path").2.get sessionId
                "template_type").2.get o "ocr_clean"
             else (((((st.get sessionId "transcript_clean").2.get sessionId
                "soap_data").2.get sessionId "pdf_path").2.get sessionId
                "template_type").2.get o "ocr_clean").2.get o "ocr_raw").1 := by
        rw [← hview]
      rw [hvt]
      by_cases hc : truthy (((((st.get sessionId "transcript_clean").2.get sessionId
          "soap_data").2.get sessionId "pdf_path").2.get sessionId
          "template_type").2.get o "ocr_clean").1 = true
      · have hcSt : truthy (st.get o "ocr_clean").1 = true := by rw [← hoc]; exact hc
        simp only [hc, hcSt, if_pos]
        exact hoc
      · have hcSt : truthy (st.get o "ocr_clean").1 = false := by
          rw [← hoc]
          simpa using hc
        simp only [Bool.not_eq_true] at hc
        simp [hc, hcSt]
        exact hor

/-- Witness for C9 (amended): a complete primary session joined with an
OCR session that has only `ocr_raw`; the view falls back to `ocr_raw`
and the durable artifacts are untouched. -/
theorem assembleFinalResponse_spec_witness :
    (assembleFinalResponse
        (DataStore.mk []
          [("s1", [("transcript_clean", .jstr "T"),
                   ("soap_data", .jobj [("SOAP_Note", .jobj [])])]),
           ("s2", [("ocr_raw", .jstr "O")])]) "s1" (some "s2")).1
      = .ok ⟨.jstr "T", .jobj [], .jnull, .jnull, .jnull, .jnull, .jnull,
             .jstr "O", .jnull⟩
    ∧ (FinalView.mk (.jstr "T") (.jobj []) .jnull .jnull .jnull .jnull .jnull
        (.jstr "O") .jnull).ocrText
      = (if truthy ((DataStore.mk []
          [("s1", [("transcript_clean", .jstr "T"),
                   ("soap_data", .jobj [("SOAP_Note", .jobj [])])]),
           ("s2", [("ocr_raw", .jstr "O")])]).get "s2" "ocr_clean").1 = true
         then ((DataStore.mk []
          [("s1", [("transcript_clean", .jstr "T"),
                   ("soap_data", .jobj [("SOAP_Note", .jobj [])])]),
           ("s2", [("ocr_raw", .jstr "O")])]).get "s2" "ocr_clean").1
         else ((DataStore.mk []
          [("s1", [("transcript_clean", .jstr "T"),
                   ("soap_data", .jobj [("SOAP_Note", .jobj [])])]),
           ("s2", [("ocr_raw", .jstr "O")])]).get "s2" "ocr_raw").1) :=
  ⟨rfl,
   (assembleFinalResponse_spec
     (DataStore.mk []
       [("s1", [("transcript_clean", .jstr "T"),
                ("soap_data", .jobj [("SOAP_Note", .jobj [])])]),
        ("s2", [("ocr_raw", .jstr "O")])]) "s1" (some "s2")).2.2 "s2" rfl
     (FinalView.mk (.jstr "T") (.jobj []) .jnull .jnull .jnull .jnull .jnull
       (.jstr "O") .jnull) rfl⟩

/-- C9 counterexample: `transcript_clean` is present in the session (the
key is listed by `getSessionData`) but stored as the empty string, and
the join nevertheless fails with IncompleteWorkflow — the handler tests
truthiness, not absence, so the claim's "exactly when absent" is false. -/
theorem assembleFinalResponse_cex :
    ("transcript_clean" ∈ ((DataStore.mk []
        [("s1", [("transcript_clean", .jstr ""),
                 ("soap_data", .jobj [("SOAP_Note", .jobj [])])])]).getSessionData
        "s1").map Prod.fst)
    ∧ (assembleFinalResponse (DataStore.mk []
        [("s1", [("transcript_clean", .jstr ""),
                 ("soap_data", .jobj [("SOAP_Note", .jobj [])])])]) "s1" none).1
      = .incomplete :=
  ⟨by simp [DataStore.getSessionData, getA], rfl⟩
